import Mathlib

/-!
Shallow embedding of the natureofdivine storefront's order / payment
server actions, and verification of the specification's claims about them.

Two parallel implementations exist in the repository:
* namespace `Part001` embeds the server-actions module found in
  `src/unnamed/part_001` (full `placeOrder` with discount handling, the
  PhonePe gateway adapter `initiatePhonePePayment` / `checkPhonePeStatus`
  with configuration checks, and `submitReview`);
* namespace `ActionsTs` embeds `src/src/lib/actions.ts` (COD-only
  `placeOrder`, `processPrepaidOrder` with pending-order bookkeeping,
  `changeOrderStatus`, `submitReview`).

The backing stores (order-store, stock-store, discount-store, review-store)
are not part of the repository sources; they are modelled from the spec's
interface contracts (section 6) as pure operations on an explicit `World`
state. External effects (price lookup, the gateway's HTTP response, the
possibility of a database write failing, clock and uuid) are oracle fields
of `Env`. Cryptographic and serialization primitives (SHA-256, base64,
JSON) are opaque function fields of `Env`: the claims are about the shape
of the signing scheme, not the hash function itself.
-/

inductive BookVariant
  | paperback
  | hardcover
  | ebook
deriving DecidableEq, Repr

inductive PaymentMethod
  | cod
  | prepaid
deriving DecidableEq, Repr

inductive OrderStatus
  | new
  | dispatched
  | delivered
  | cancelled
deriving DecidableEq, Repr

/-- Rendering of an order status, as interpolated into user messages. -/
def statusString : OrderStatus → String
  | .new => "new"
  | .dispatched => "dispatched"
  | .delivered => "delivered"
  | .cancelled => "cancelled"

/-- Discount Ledger entry: code, percentage, usage counter (spec section 3). -/
structure Discount where
  code : String
  percent : Nat
  usageCount : Nat
deriving DecidableEq, Repr

/-- Persisted order record (spec section 3; fields as written by the code). -/
structure Order where
  id : String
  userId : String
  name : String
  phone : String
  email : String
  address : String
  street : String
  city : String
  country : String
  state : String
  pinCode : String
  paymentMethod : PaymentMethod
  variant : BookVariant
  price : Int
  originalPrice : Nat
  discountCode : String
  discountAmount : Nat
  status : OrderStatus
  hasReview : Bool
deriving DecidableEq, Repr

/-- Pending order: same shape as an order minus id/status/createdAt/hasReview,
keyed externally by the gateway transaction id (spec section 3). -/
structure PendingOrder where
  userId : String
  name : String
  email : String
  phone : Option String
  address : Option String
  street : Option String
  city : Option String
  country : Option String
  state : Option String
  pinCode : Option String
  variant : BookVariant
  price : Int
  paymentMethod : PaymentMethod
deriving DecidableEq, Repr

structure Review where
  orderId : String
  userId : String
  rating : Nat
  reviewText : Option String
  userName : String
deriving DecidableEq, Repr

/-- Durable state held by the external document store. -/
structure World where
  stock : BookVariant → Int
  discounts : List Discount
  orders : List Order
  pendingOrders : List (String × PendingOrder)
  reviews : List Review
  nextOrderId : Nat

/-- Data passed to the order store's create operation: an order minus the
store-generated id, status and hasReview. -/
structure NewOrderData where
  userId : String
  name : String
  phone : String
  email : String
  address : String
  street : String
  city : String
  country : String
  state : String
  pinCode : String
  paymentMethod : PaymentMethod
  variant : BookVariant
  price : Int
  originalPrice : Nat
  discountCode : String
  discountAmount : Nat
deriving DecidableEq, Repr

/-- Modelled from the spec: discount-store `getByCode` (the discount-store
module is not in the repository sources). Looks the code up in the ledger. -/
def getDiscount (code : String) (w : World) : Option Discount :=
  w.discounts.find? (fun d => d.code == code)

/-- Increment the usage counter of every ledger entry carrying `code`;
entries with other codes are untouched, and an absent code is a no-op. -/
def incUsage (code : String) (ds : List Discount) : List Discount :=
  ds.map (fun d => if d.code == code then { d with usageCount := d.usageCount + 1 } else d)

/-- Modelled from the spec: discount-store `incrementUsage(code)`,
a no-op if the code is absent (spec section 4.3). -/
def incrementDiscountUsage (code : String) (w : World) : World :=
  { w with discounts := incUsage code w.discounts }

/-- Usage counter currently recorded for a code (0 if the code is absent). -/
def usageOf (code : String) (ds : List Discount) : Nat :=
  match ds.find? (fun d => d.code == code) with
  | some d => d.usageCount
  | none => 0

/-- Modelled from the spec: stock-store `decrement(variant, n)` (spec
section 4.3; clamping behavior is undefined in the source, so the quantity
is an unclamped integer). -/
def decreaseStock (v : BookVariant) (n : Nat) (w : World) : World :=
  { w with stock := fun v2 => if v2 = v then w.stock v - n else w.stock v2 }

/-- Modelled from the spec: order-store `create(orderData)` → Order with a
store-generated id, status `new`, hasReview `false` (spec sections 4.1, 6). -/
def addOrder (d : NewOrderData) (w : World) : Order × World :=
  let o : Order :=
    { id := "ORD-" ++ toString w.nextOrderId
      userId := d.userId, name := d.name, phone := d.phone, email := d.email
      address := d.address, street := d.street, city := d.city
      country := d.country, state := d.state, pinCode := d.pinCode
      paymentMethod := d.paymentMethod, variant := d.variant
      price := d.price, originalPrice := d.originalPrice
      discountCode := d.discountCode, discountAmount := d.discountAmount
      status := .new, hasReview := false }
  (o, { w with orders := o :: w.orders, nextOrderId := w.nextOrderId + 1 })

/-- Predicate locating an order by owning customer and order id. -/
def orderKey (userId orderId : String) (o : Order) : Bool :=
  o.userId == userId && o.id == orderId

/-- Modelled from the spec: order-store `getByIdForCustomer` (spec section 6). -/
def getOrderById (userId orderId : String) (w : World) : Option Order :=
  w.orders.find? (orderKey userId orderId)

/-- Modelled from the spec: order-store `updateStatus(custId, orderId,
status, hasReview?)`; fails (returns `none`) when the order cannot be
located for the given customer; `hasReview = none` leaves the flag as is. -/
def updateOrderStatus (userId orderId : String) (st : OrderStatus)
    (hasReview : Option Bool) (w : World) : Option World :=
  if w.orders.any (orderKey userId orderId) then
    some { w with orders := w.orders.map (fun o =>
      if orderKey userId orderId o then
        { o with status := st, hasReview := hasReview.getD o.hasReview }
      else o) }
  else none

/-- Modelled from the spec: order-store `createPending(txnId, data)`. -/
def addPendingOrder (txnId : String) (p : PendingOrder) (w : World) : World :=
  { w with pendingOrders := (txnId, p) :: w.pendingOrders }

/-- Modelled from the spec: order-store `deletePending(txnId)`. -/
def deletePendingOrder (txnId : String) (w : World) : World :=
  { w with pendingOrders := w.pendingOrders.filter (fun e => e.1 != txnId) }

/-- Modelled from the spec: review-store `addReview`. -/
def addReview (r : Review) (w : World) : World :=
  { w with reviews := r :: w.reviews }

/-- JavaScript string truthiness for an optional string: `undefined` and the
empty string are falsy. -/
def jsTruthy : Option String → Bool
  | none => false
  | some s => s != ""

/-- JavaScript `a || d` on an optional string: the default replaces both
`undefined` and the empty string. -/
def jsOr (o : Option String) (d : String) : String :=
  if jsTruthy o then o.getD d else d

/-- Math.round(price * percent / 100) under exact arithmetic: JavaScript's
round half toward positive infinity, computed on the rational
`price * percent / 100` (the source computes this in floating point; for
the integer prices and 1-100 percentages of the data model the rounded
result agrees with the exact rational computation). -/
def jsRound (price percent : Nat) : Nat :=
  (price * percent + 50) / 100

/-- Signed payload of the gateway's pay request (the object the code
JSON-serializes, base64-encodes and signs). -/
structure PayPayload where
  merchantId : String
  merchantTransactionId : String
  merchantUserId : String
  amount : Int
  redirectUrl : String
  redirectMode : String
  callbackUrl : String
  mobileNumber : Option String
  instrumentType : String
deriving DecidableEq, Repr

/-- The observable parts of an HTTP request the adapter sends. -/
structure HttpRequest where
  url : String
  method : String
  contentType : String
  xVerify : String
  xMerchantId : Option String
  body : Option String
deriving DecidableEq, Repr

/-- Gateway's reply to a pay request, as the code inspects it: either a
parsed JSON body (success flag, optional redirect url, optional message) or
a thrown network/parse error. -/
inductive GatewayOutcome
  | reply (ok : Bool) (redirectUrl : Option String) (message : Option String)
  | netError (message : String)
deriving DecidableEq, Repr

/-- External oracles: resolved prices, configuration environment variables,
the gateway's behaviour, the possibility of the order-store create throwing,
clock, uuid, and the opaque crypto/serialization primitives. -/
structure Env where
  prices : BookVariant → Nat
  addOrderFails : Bool
  gateway : GatewayOutcome
  now : Nat
  uuid : String
  phonepeMerchantId : Option String
  phonepeSaltKey : Option String
  phonepeSaltIndex : Option String
  hostUrl : Option String
  isProd : Bool
  sha256hex : String → String
  base64 : String → String
  jsonOf : PayPayload → String

/-- Split a character list at every occurrence of the separator. -/
def splitChar (sep : Char) : List Char → List (List Char)
  | [] => [[]]
  | c :: cs =>
      let r := splitChar sep cs
      if c = sep then [] :: r
      else
        match r with
        | [] => [[c]]
        | h :: t => (c :: h) :: t

/-- Modelled from the spec: zod's `.email()` validator (library code, not in
the repository): a nonempty local part, a single at sign, and a domain
containing an inner dot. -/
def validEmail (s : String) : Bool :=
  match splitChar '@' s.data with
  | [lp, dp] =>
      !lp.isEmpty && !dp.isEmpty && dp.contains '.' &&
      dp.head? != some '.' && dp.getLast? != some '.'
  | _ => false

/-- PhonePe sandbox / production API base, selected by the production flag. -/
def apiBase (isProd : Bool) : String :=
  if isProd then "https://api.phonepe.com/apis/hermes"
  else "https://api-preprod.phonepe.com/apis/pg-sandbox"

/-- Fixed pay endpoint path, part of the signed checksum string. -/
def payEndpoint : String := "/pg/v1/pay"

/-- Result shape shared by the review / status actions. -/
structure SubmitResult where
  success : Bool
  message : String
deriving DecidableEq, Repr

namespace Part001

/-- Form payload of the server-actions `placeOrder` in `src/unnamed/part_001`
(the `OrderFormSchema` field set; optional fields are options). -/
structure OrderPayload where
  variant : BookVariant
  name : String
  email : String
  phone : String
  address : String
  street : Option String
  city : String
  country : String
  state : String
  pinCode : String
  userId : String
  discountCode : Option String
  paymentMethod : PaymentMethod
deriving DecidableEq, Repr

/-- `OrderFormSchema.safeParse` success condition: the zod checks of
`src/unnamed/part_001` lines 15-29 (variant restricted to physical
variants; minimum lengths; email format). -/
def orderFormValid (p : OrderPayload) : Bool :=
  (p.variant == .paperback || p.variant == .hardcover) &&
  decide (2 ≤ p.name.length) && validEmail p.email &&
  decide (10 ≤ p.phone.length) && decide (5 ≤ p.address.length) &&
  decide (2 ≤ p.city.length) && decide (2 ≤ p.country.length) &&
  decide (2 ≤ p.state.length) && decide (3 ≤ p.pinCode.length) &&
  decide (1 ≤ p.userId.length)

/-- Result of `placeOrder`: success flag, message, optional order id, and the
`paymentData.redirectUrl` field flattened. -/
structure PlaceOrderResult where
  success : Bool
  message : String
  orderId : Option String
  redirectUrl : Option String
deriving DecidableEq, Repr

/-- What `initiatePhonePePayment` produced: the signed payload, the request
it sent, and the outcome the caller sees. -/
structure InitResult where
  payload : PayPayload
  request : HttpRequest
  success : Bool
  redirectUrl : Option String
  message : Option String
deriving DecidableEq, Repr

/-- Payload built by `initiatePhonePePayment` (`src/unnamed/part_001`
lines 142-158), factored into a named definition: amount in paise, a
transaction id derived from the order id and the clock, a derived payer id,
callback/redirect URLs on the configured host. -/
def payPayload (env : Env) (order : Order) : PayPayload :=
  let host := env.hostUrl.getD ""
  { merchantId := env.phonepeMerchantId.getD ""
    merchantTransactionId := "MUID-" ++ order.id ++ "-" ++ toString env.now
    merchantUserId :=
      if order.userId != "" then "CUID-" ++ order.userId.take 25
      else "CUID-GUEST-" ++ toString env.now
    amount := order.price * 100
    redirectUrl := host ++ "/api/payment/callback"
    redirectMode := "POST"
    callbackUrl := host ++ "/api/payment/callback"
    mobileNumber := some order.phone
    instrumentType := "PAY_PAGE" }

/-- Request sent by `initiatePhonePePayment` (`src/unnamed/part_001` lines
162-180), factored into a named definition: base64 of the serialized
payload in the body, checksum header over base64Payload + apiPath + salt
key with the salt index appended after `###`. -/
def payRequest (env : Env) (order : Order) : HttpRequest :=
  let base64Payload := env.base64 (env.jsonOf (payPayload env order))
  let checksumString := base64Payload ++ payEndpoint ++ env.phonepeSaltKey.getD ""
  { url := apiBase env.isProd ++ payEndpoint
    method := "POST"
    contentType := "application/json"
    xVerify := env.sha256hex checksumString ++ "###" ++ env.phonepeSaltIndex.getD ""
    xMerchantId := none
    body := some base64Payload }

/-- How `initiatePhonePePayment` reads the gateway's reply
(`src/unnamed/part_001` lines 182-200): success plus a truthy redirect URL
yields success; anything else yields a failure with the reply's message or
a fixed fallback; a thrown fetch error yields its message. -/
def gatewayView : GatewayOutcome → Bool × Option String × Option String
  | .netError m => (false, none, some m)
  | .reply ok url msg =>
      if ok && jsTruthy url then (true, url, none)
      else (false, none, some (msg.getD "Failed to get redirect URL from PhonePe."))

/-- Embedding of `initiatePhonePePayment` (`src/unnamed/part_001` lines
131-201): configuration check (throws when any of the four env vars is
missing or empty), then the signed request of `payRequest` and the
gateway's reply as read by `gatewayView`. A thrown configuration error is
`Except.error`. -/
def initiatePhonePePayment (env : Env) (order : Order) : Except String InitResult :=
  if !(jsTruthy env.phonepeMerchantId && jsTruthy env.phonepeSaltKey &&
       jsTruthy env.phonepeSaltIndex && jsTruthy env.hostUrl) then
    .error "PhonePe environment variables are not configured."
  else
    let v := gatewayView env.gateway
    .ok { payload := payPayload env order, request := payRequest env order
          success := v.1, redirectUrl := v.2.1, message := v.2.2 }

/-- Discount amount exactly as `placeOrder` computes it
(`src/unnamed/part_001` lines 56-62): lines factored into a named
definition so the theorems can refer to it. -/
def codeDiscountAmount (w : World) (code : Option String) (originalPrice : Nat) : Nat :=
  if jsTruthy code then
    match getDiscount (code.getD "") w with
    | some d => jsRound originalPrice d.percent
    | none => 0
  else 0

/-- The clean order data `placeOrder` hands to the order store
(`src/unnamed/part_001` lines 64-81), factored into a named definition. -/
def newOrderData (env : Env) (w : World) (p : OrderPayload) : NewOrderData :=
  let originalPrice := env.prices p.variant
  let discountAmount := codeDiscountAmount w p.discountCode originalPrice
  { userId := p.userId, name := p.name, phone := p.phone, email := p.email
    address := p.address, street := p.street.getD "", city := p.city
    country := p.country, state := p.state, pinCode := p.pinCode
    paymentMethod := p.paymentMethod, variant := p.variant
    price := (originalPrice : Int) - (discountAmount : Int)
    originalPrice := originalPrice
    discountCode := p.discountCode.getD ""
    discountAmount := discountAmount }

/-- Embedding of `placeOrder` (`src/unnamed/part_001` lines 33-129):
validation, price resolution, discount lookup and application, order
persistence, then the COD branch (stock decrement, conditional discount
usage increment) or the prepaid branch (payment initiation). A failing
order-store write (`Env.addOrderFails`) is caught by the surrounding
try/catch before any other side effect. -/
def placeOrder (env : Env) (w : World) (p : OrderPayload) :
    PlaceOrderResult × World :=
  if !orderFormValid p then
    ({ success := false, message := "Invalid data provided. Please check the form."
       orderId := none, redirectUrl := none }, w)
  else
    if env.addOrderFails then
      ({ success := false
         message := "Could not create a new order in the database. Reason: database write failed"
         orderId := none, redirectUrl := none }, w)
    else
      let created := addOrder (newOrderData env w p) w
      let newOrder := created.1
      let w1 := created.2
      match p.paymentMethod with
      | .cod =>
          let w2 := decreaseStock p.variant 1 w1
          let w3 :=
            if jsTruthy p.discountCode then
              incrementDiscountUsage (p.discountCode.getD "") w2
            else w2
          ({ success := true, message := "Order created successfully!"
             orderId := some newOrder.id, redirectUrl := none }, w3)
      | .prepaid =>
          match initiatePhonePePayment env newOrder with
          | .error e =>
              ({ success := false
                 message := "Could not create a new order in the database. Reason: " ++ e
                 orderId := none, redirectUrl := none }, w1)
          | .ok r =>
              if r.success && r.redirectUrl.isSome then
                ({ success := true, message := "Redirecting to payment gateway."
                   orderId := none, redirectUrl := r.redirectUrl }, w1)
              else
                ({ success := false, message := r.message.getD "Could not initiate payment."
                   orderId := none, redirectUrl := none }, w1)

/-- Embedding of `checkPhonePeStatus` (`src/unnamed/part_001` lines
203-238): configuration check over merchant id, salt key and salt index,
then a GET request to the status path signed with the same checksum scheme,
the merchant id sent as a separate `X-MERCHANT-ID` header and no body. -/
def checkPhonePeStatus (env : Env) (merchantTransactionId : String) :
    Except String HttpRequest :=
  if !(jsTruthy env.phonepeMerchantId && jsTruthy env.phonepeSaltKey &&
       jsTruthy env.phonepeSaltIndex) then
    .error "PhonePe environment variables are not configured."
  else
    let merchantId := env.phonepeMerchantId.getD ""
    let saltKey := env.phonepeSaltKey.getD ""
    let saltIndex := env.phonepeSaltIndex.getD ""
    let endpoint := "/pg/v1/status/" ++ merchantId ++ "/" ++ merchantTransactionId
    let xVerify := env.sha256hex (endpoint ++ saltKey) ++ "###" ++ saltIndex
    .ok { url := apiBase env.isProd ++ endpoint
          method := "GET"
          contentType := "application/json"
          xVerify := xVerify
          xMerchantId := some merchantId
          body := none }

/-- Review form input (`ReviewSchema` of `src/unnamed/part_001`). -/
structure ReviewInput where
  orderId : String
  userId : String
  rating : Nat
  reviewText : Option String
deriving DecidableEq, Repr

/-- `ReviewSchema.parse` success condition: rating between 1 and 5. -/
def reviewValid (d : ReviewInput) : Bool :=
  decide (1 ≤ d.rating) && decide (d.rating ≤ 5)

/-- Embedding of `submitReview` (`src/unnamed/part_001` lines 265-291):
validation, order lookup for the requesting user (failure when absent),
review persistence with the order's name denormalized, then an
unconditional update of the order to status delivered with hasReview true. -/
def submitReview (w : World) (d : ReviewInput) : SubmitResult × World :=
  if !reviewValid d then
    ({ success := false, message := "Failed to submit review." }, w)
  else
    match getOrderById d.userId d.orderId w with
    | none => ({ success := false, message := "Order not found." }, w)
    | some order =>
        let w1 := addReview
          { orderId := d.orderId, userId := d.userId, rating := d.rating
            reviewText := d.reviewText, userName := order.name } w
        match updateOrderStatus d.userId d.orderId .delivered (some true) w1 with
        | some w2 => ({ success := true, message := "Review submitted successfully." }, w2)
        | none => ({ success := false, message := "Failed to submit review." }, w1)

end Part001

namespace ActionsTs

/-- Form payload of `src/src/lib/actions.ts` (`OrderSchema`: only variant,
name, email and userId are constrained; the remaining fields are optional). -/
structure OrderInput where
  variant : BookVariant
  name : String
  email : String
  phone : Option String
  address : Option String
  street : Option String
  city : Option String
  country : Option String
  state : Option String
  pinCode : Option String
  userId : String
deriving DecidableEq, Repr

/-- `OrderSchema.safeParse` success condition of `src/src/lib/actions.ts`. -/
def orderSchemaValid (p : OrderInput) : Bool :=
  (p.variant == .paperback || p.variant == .hardcover) &&
  decide (2 ≤ p.name.length) && validEmail p.email &&
  decide (1 ≤ p.userId.length)

structure CodResult where
  success : Bool
  message : String
  orderId : Option String
deriving DecidableEq, Repr

/-- Embedding of the COD-only `placeOrder` of `src/src/lib/actions.ts`
lines 34-79: validation, price resolution, stock decrement, then order
persistence; the catch handler returns a failure result. The actions.ts
order record carries no discount fields, so the embedding stores the
defaults (no code, zero discount, original price = price). -/
def placeOrder (env : Env) (w : World) (p : OrderInput) : CodResult × World :=
  if !orderSchemaValid p then
    ({ success := false, message := "Invalid data provided. Please check the form."
       orderId := none }, w)
  else
    let price : Int := (env.prices p.variant : Int)
    let w1 := decreaseStock p.variant 1 w
    if env.addOrderFails then
      ({ success := false
         message := "An error occurred while placing your order. Please try again."
         orderId := none }, w1)
    else
      let created := addOrder
        { userId := p.userId, name := p.name, phone := p.phone.getD ""
          email := p.email, address := p.address.getD ""
          street := p.street.getD "", city := p.city.getD ""
          country := p.country.getD "", state := p.state.getD ""
          pinCode := p.pinCode.getD "", paymentMethod := .cod
          variant := p.variant, price := price
          originalPrice := env.prices p.variant
          discountCode := "", discountAmount := 0 } w1
      ({ success := true, message := "Order created successfully!"
         orderId := some created.1.id }, created.2)

structure PrepaidResult where
  success : Bool
  message : String
  redirectUrl : Option String
deriving DecidableEq, Repr

/-- The module-level `HOST_URL` constant: env var with a localhost default. -/
def hostUrl (env : Env) : String :=
  jsOr env.hostUrl "http://localhost:9002"

/-- The module-level `SALT_INDEX` constant: `parseInt` of the env var with
default "1" (a non-numeric value, which parseInt turns into NaN, is not
modelled; the embedding maps it to 0). -/
def saltIndexNum (env : Env) : Nat :=
  ((jsOr env.phonepeSaltIndex "1").toNat?).getD 0

/-- Generated merchant transaction id: `M` + timestamp + uuid, truncated
to 35 characters. -/
def merchantTransactionId (env : Env) : String :=
  ("M" ++ toString env.now ++ env.uuid).take 35

/-- Payload built by `processPrepaidOrder` (`src/src/lib/actions.ts` lines
104-120), factored into a named definition: the module-level credentials
default to the empty string when unconfigured; amount in paise. -/
def prepaidPayload (env : Env) (p : OrderInput) : PayPayload :=
  { merchantId := jsOr env.phonepeMerchantId ""
    merchantTransactionId := merchantTransactionId env
    merchantUserId := p.userId
    amount := (env.prices p.variant : Int) * 100
    redirectUrl := hostUrl env ++ "/orders"
    redirectMode := "POST"
    callbackUrl := hostUrl env ++ "/api/payment/callback"
    mobileNumber := p.phone
    instrumentType := "PAY_PAGE" }

/-- Request sent by `processPrepaidOrder` (`src/src/lib/actions.ts` lines
131-142), factored into a named definition: checksum over
base64Payload + apiPath + salt key (empty string when unconfigured) with
the parsed salt index appended after `###`. -/
def prepaidRequest (env : Env) (p : OrderInput) : HttpRequest :=
  let base64Payload := env.base64 (env.jsonOf (prepaidPayload env p))
  { url := "https://api-preprod.phonepe.com/apis/pg-sandbox" ++ payEndpoint
    method := "POST"
    contentType := "application/json"
    xVerify := env.sha256hex (base64Payload ++ payEndpoint ++ jsOr env.phonepeSaltKey "") ++
      "###" ++ toString (saltIndexNum env)
    xMerchantId := none
    body := some base64Payload }

/-- Pending-order record `processPrepaidOrder` stores before calling the
gateway (`src/src/lib/actions.ts` lines 122-128). -/
def pendingData (env : Env) (p : OrderInput) : PendingOrder :=
  { userId := p.userId, name := p.name, email := p.email, phone := p.phone
    address := p.address, street := p.street, city := p.city
    country := p.country, state := p.state, pinCode := p.pinCode
    variant := p.variant, price := (env.prices p.variant : Int)
    paymentMethod := .prepaid }

/-- Embedding of `processPrepaidOrder` (`src/src/lib/actions.ts` lines
87-164): validation, price resolution, pending-order creation keyed by the
generated transaction id, checksum signing and POST to the sandbox pay
endpoint (the module-level credentials default to the empty string and key
index 1 when unconfigured, with no configuration check), then either the
redirect URL on success, pending-order deletion and a failure result on an
unsuccessful gateway reply, or the catch handler's failure result on a
thrown network error (which performs no pending-order cleanup). The third
component is the signed request and payload actually sent, `none` when
validation failed before any request was made. -/
def processPrepaidOrder (env : Env) (w : World) (p : OrderInput) :
    PrepaidResult × World × Option (HttpRequest × PayPayload) :=
  if !orderSchemaValid p then
    ({ success := false, message := "Invalid data provided. Please check the form."
       redirectUrl := none }, w, none)
  else
    let mtid := merchantTransactionId env
    let w1 := addPendingOrder mtid (pendingData env p) w
    let sent := some (prepaidRequest env p, prepaidPayload env p)
    match env.gateway with
    | .netError m =>
        ({ success := false, message := m, redirectUrl := none }, w1, sent)
    | .reply ok url msg =>
        if !(ok && jsTruthy url) then
          ({ success := false
             message := msg.getD "Failed to initiate payment with PhonePe."
             redirectUrl := none }, deletePendingOrder mtid w1, sent)
        else
          ({ success := true, message := "Redirecting to payment gateway."
             redirectUrl := url }, w1, sent)

/-- Embedding of `changeOrderStatus` (`src/src/lib/actions.ts` lines
176-185): delegates to the order store's status update; a thrown not-found
error is caught and turned into a failure result. -/
def changeOrderStatus (w : World) (userId orderId : String) (status : OrderStatus) :
    SubmitResult × World :=
  match updateOrderStatus userId orderId status none w with
  | some w1 =>
      ({ success := true
         message := "Order " ++ orderId ++ " status updated to " ++ statusString status }, w1)
  | none => ({ success := false, message := "Failed to update order status." }, w)

end ActionsTs

/-- Discount amount as claim C1 words it (the specification's formula,
stated separately from the code's computation): the rounded percentage when
the supplied code exists in the Discount Ledger, zero otherwise, including
when no code is supplied. -/
def specDiscountAmount (w : World) (code : Option String) (originalPrice : Nat) : Nat :=
  match code with
  | none => 0
  | some c =>
      match getDiscount c w with
      | some d => jsRound originalPrice d.percent
      | none => 0

/-- Whether the part_001 `placeOrder` applies a discount: a truthy code was
supplied and it exists in the ledger. -/
def discountApplied (w : World) (code : Option String) : Bool :=
  jsTruthy code && (getDiscount (code.getD "") w).isSome

/-- Sample oracle environment used by the concrete witnesses. -/
def sampleEnv : Env :=
  { prices := fun v => match v with
      | .paperback => 500
      | .hardcover => 700
      | .ebook => 100
    addOrderFails := false
    gateway := .reply true (some "https://pay.example/redirect") none
    now := 1700000000000
    uuid := "abcd-efgh"
    phonepeMerchantId := some "MID"
    phonepeSaltKey := some "SECRET"
    phonepeSaltIndex := some "1"
    hostUrl := some "https://host.example"
    isProd := false
    sha256hex := fun s => "H(" ++ s ++ ")"
    base64 := fun s => "B64(" ++ s ++ ")"
    jsonOf := fun p => p.merchantId ++ "|" ++ p.merchantTransactionId ++ "|" ++ toString p.amount }

/-- Sample store state used by the concrete witnesses: one SAVE10 code at
10 percent, stock 5 everywhere, no orders yet. -/
def sampleWorld : World :=
  { stock := fun _ => 5
    discounts := [{ code := "SAVE10", percent := 10, usageCount := 0 }]
    orders := []
    pendingOrders := []
    reviews := []
    nextOrderId := 0 }

/-- Sample valid COD payload carrying the SAVE10 code. -/
def samplePayload : Part001.OrderPayload :=
  { variant := .paperback, name := "Jo Doe", email := "a@b.co"
    phone := "1234567890", address := "12 Road", street := none
    city := "Pune", country := "India", state := "MH", pinCode := "411001"
    userId := "user1", discountCode := some "SAVE10", paymentMethod := .cod }

/-- Sample valid actions.ts order input. -/
def sampleInput : ActionsTs.OrderInput :=
  { variant := .paperback, name := "Jo Doe", email := "a@b.co"
    phone := some "1234567890", address := none, street := none, city := none
    country := none, state := none, pinCode := none, userId := "user1" }

/-- Sample persisted order (currently cancelled, unreviewed), used by the
status-change and review witnesses. -/
def sampleOrder : Order :=
  { id := "ORD-7", userId := "user1", name := "Jo Doe", phone := "1234567890"
    email := "a@b.co", address := "12 Road", street := "", city := "Pune"
    country := "India", state := "MH", pinCode := "411001"
    paymentMethod := .cod, variant := .paperback, price := 450
    originalPrice := 500, discountCode := "SAVE10", discountAmount := 50
    status := .cancelled, hasReview := false }

/-- Sample store state containing the one cancelled order. -/
def orderWorld : World :=
  { sampleWorld with orders := [sampleOrder] }

/-- Sample environment with none of the PhonePe variables configured. -/
def noCfgEnv : Env :=
  { sampleEnv with phonepeMerchantId := none, phonepeSaltKey := none, phonepeSaltIndex := none, hostUrl := none }

/-- Sample environment whose gateway replies with a failure payload. -/
def gwFailEnv : Env :=
  { sampleEnv with gateway := .reply false none (some "KEY_ERROR") }

/-- Sample environment whose gateway call throws a network error. -/
def netErrEnv : Env :=
  { sampleEnv with gateway := .netError "fetch failed" }

/-- The status-check request as `checkPhonePeStatus` builds it, named so
theorems can exhibit it. -/
def statusRequest (env : Env) (txn : String) : HttpRequest :=
  { url := apiBase env.isProd ++ ("/pg/v1/status/" ++ env.phonepeMerchantId.getD "" ++ "/" ++ txn)
    method := "GET"
    contentType := "application/json"
    xVerify := env.sha256hex (("/pg/v1/status/" ++ env.phonepeMerchantId.getD "" ++ "/" ++ txn) ++ env.phonepeSaltKey.getD "") ++ "###" ++ env.phonepeSaltIndex.getD ""
    xMerchantId := some (env.phonepeMerchantId.getD "")
    body := none }

theorem find?_map_pres {α : Type} (p : α → Bool) (f : α → α) (l : List α)
    (hf : ∀ a, p (f a) = p a) :
    (l.map f).find? p = (l.find? p).map f := by
  induction l with
  | nil => rfl
  | cons a t ih =>
      cases h : p a with
      | true => simp [List.find?_cons, hf, h]
      | false => simp [List.find?_cons, hf, h, ih]

theorem getDiscount_empty (w : World) (h : ∀ d ∈ w.discounts, d.code ≠ "") :
    getDiscount "" w = none := by
  unfold getDiscount
  rw [List.find?_eq_none]
  intro d hd
  simpa using h d hd

theorem usageOf_incUsage (c code : String) (ds : List Discount) :
    usageOf c (incUsage code ds) =
      usageOf c ds +
        (if c = code ∧ (ds.find? (fun d => d.code == c)).isSome then 1 else 0) := by
  unfold usageOf incUsage
  rw [find?_map_pres]
  · cases hfind : ds.find? (fun d => d.code == c) with
    | none => simp
    | some d =>
        have hdc : d.code = c := by
          have := List.find?_some hfind
          simpa using this
        by_cases hc : c = code
        · simp [hdc, hc]
        · simp [hdc, hc]
  · intro d
    by_cases hd : d.code == code
    · simp [hd]
    · simp [hd]

theorem discountAmount_eq_spec (w : World) (code : Option String) (op : Nat)
    (hledger : ∀ d ∈ w.discounts, d.code ≠ "") :
    Part001.codeDiscountAmount w code op = specDiscountAmount w code op := by
  cases code with
  | none => rfl
  | some c =>
      by_cases hc : c = ""
      · subst hc
        simp [Part001.codeDiscountAmount, jsTruthy, specDiscountAmount,
          getDiscount_empty w hledger]
      · simp [Part001.codeDiscountAmount, jsTruthy, hc, specDiscountAmount]

/-- C1: for every order placement with valid input (and a successful
database write), the persisted order satisfies
price = originalPrice − discountAmount, where discountAmount is the
specification's formula: round(originalPrice·percent/100) when the supplied
discount code exists in the Discount Ledger at order time, 0 otherwise,
including when no code is supplied (ledger codes are nonempty strings per
the data model). -/
theorem placeOrder_price_discount_correct (env : Env) (w : World)
    (p : Part001.OrderPayload)
    (hval : Part001.orderFormValid p = true)
    (hdb : env.addOrderFails = false)
    (hledger : ∀ d ∈ w.discounts, d.code ≠ "") :
    ∃ o : Order, ((Part001.placeOrder env w p).2).orders = o :: w.orders ∧
      o.originalPrice = env.prices p.variant ∧
      o.discountAmount = specDiscountAmount w p.discountCode (env.prices p.variant) ∧
      o.price = (o.originalPrice : Int) - (o.discountAmount : Int) := by
  have hda := discountAmount_eq_spec w p.discountCode (env.prices p.variant) hledger
  refine ⟨(addOrder (Part001.newOrderData env w p) w).1, ?_, rfl, ?_, rfl⟩
  · cases hpm : p.paymentMethod with
    | cod =>
        simp only [Part001.placeOrder, hval, hdb, hpm, Bool.not_true,
          Bool.false_eq_true, if_false, if_true]
        split <;> rfl
    | prepaid =>
        simp only [Part001.placeOrder, hval, hdb, hpm, Bool.not_true, Bool.false_eq_true,
          if_false, if_true]
        cases hinit : Part001.initiatePhonePePayment env
            (addOrder (Part001.newOrderData env w p) w).1 with
        | error e => simp [hinit, addOrder]
        | ok r =>
            by_cases hr : (r.success && r.redirectUrl.isSome) = true
            · simp [hinit, hr, addOrder]
            · simp [hinit, hr, addOrder]
  · simpa [addOrder, Part001.newOrderData] using hda

/-- Closed witness for C1: the SAVE10 COD order at base price 500 persists
an order with original price 500, discount amount 50 and price 450. -/
theorem placeOrder_price_discount_correct_witness :
    ∃ o : Order, ((Part001.placeOrder sampleEnv sampleWorld samplePayload).2).orders =
        o :: sampleWorld.orders ∧
      o.originalPrice = sampleEnv.prices samplePayload.variant ∧
      o.discountAmount =
        specDiscountAmount sampleWorld samplePayload.discountCode
          (sampleEnv.prices samplePayload.variant) ∧
      o.price = (o.originalPrice : Int) - (o.discountAmount : Int) :=
  placeOrder_price_discount_correct sampleEnv sampleWorld samplePayload
    (by decide) (by decide) (by decide)

theorem placeOrder_cod_eq (env : Env) (w : World) (p : Part001.OrderPayload)
    (hval : Part001.orderFormValid p = true)
    (hdb : env.addOrderFails = false)
    (hpm : p.paymentMethod = PaymentMethod.cod) :
    Part001.placeOrder env w p =
      ({ success := true, message := "Order created successfully!"
         orderId := some ("ORD-" ++ toString w.nextOrderId), redirectUrl := none },
       (if jsTruthy p.discountCode then
          incrementDiscountUsage (p.discountCode.getD "")
            (decreaseStock p.variant 1 (addOrder (Part001.newOrderData env w p) w).2)
        else decreaseStock p.variant 1 (addOrder (Part001.newOrderData env w p) w).2)) := by
  simp only [Part001.placeOrder, hval, hdb, hpm, Bool.not_true, Bool.false_eq_true,
    if_false, if_true]
  split <;> rfl

theorem placeOrder_prepaid_eq (env : Env) (w : World) (p : Part001.OrderPayload)
    (hval : Part001.orderFormValid p = true)
    (hdb : env.addOrderFails = false)
    (hpm : p.paymentMethod = PaymentMethod.prepaid) :
    Part001.placeOrder env w p =
      (match Part001.initiatePhonePePayment env (addOrder (Part001.newOrderData env w p) w).1 with
       | .error e =>
           ({ success := false
              message := "Could not create a new order in the database. Reason: " ++ e
              orderId := none, redirectUrl := none },
            (addOrder (Part001.newOrderData env w p) w).2)
       | .ok r =>
           if r.success && r.redirectUrl.isSome then
             ({ success := true, message := "Redirecting to payment gateway."
                orderId := none, redirectUrl := r.redirectUrl },
              (addOrder (Part001.newOrderData env w p) w).2)
           else
             ({ success := false, message := r.message.getD "Could not initiate payment."
                orderId := none, redirectUrl := none },
              (addOrder (Part001.newOrderData env w p) w).2)) := by
  simp only [Part001.placeOrder, hval, hdb, hpm, Bool.not_true, Bool.false_eq_true,
    if_false, if_true]

/-- C2: every successful COD placement through the part_001 `placeOrder`
decrements the Stock Ledger by exactly 1 for the ordered variant,
increments the discount code's usage counter exactly once iff a discount
was applied, returns success carrying the new order's id, and persists the
order with the discount formula's amounts (the SAVE10 scenario — base
price 500, 10 percent, discount 50, price 450, stock −1, usage +1 — is the
closed witness below). -/
theorem placeOrder_cod_effects (env : Env) (w : World) (p : Part001.OrderPayload)
    (hval : Part001.orderFormValid p = true)
    (hdb : env.addOrderFails = false)
    (hpm : p.paymentMethod = PaymentMethod.cod)
    (hledger : ∀ d ∈ w.discounts, d.code ≠ "") :
    ((Part001.placeOrder env w p).1).success = true ∧
    ((Part001.placeOrder env w p).1).orderId = some ("ORD-" ++ toString w.nextOrderId) ∧
    ((Part001.placeOrder env w p).2).stock p.variant = w.stock p.variant - 1 ∧
    (∀ c : String,
      usageOf c ((Part001.placeOrder env w p).2).discounts =
        usageOf c w.discounts +
          (if discountApplied w p.discountCode = true ∧ p.discountCode = some c
           then 1 else 0)) ∧
    (∀ o : Order, ((Part001.placeOrder env w p).2).orders.head? = some o →
      o.discountAmount = specDiscountAmount w p.discountCode (env.prices p.variant) ∧
      o.price = (env.prices p.variant : Int) - (o.discountAmount : Int)) := by
  have hda := discountAmount_eq_spec w p.discountCode (env.prices p.variant) hledger
  rw [placeOrder_cod_eq env w p hval hdb hpm]
  refine ⟨rfl, rfl, ?_, ?_, ?_⟩
  · split <;> simp [incrementDiscountUsage, decreaseStock, addOrder]
  · intro c
    cases hcode : p.discountCode with
    | none =>
        simp [jsTruthy, discountApplied, decreaseStock, addOrder]
    | some s =>
        by_cases hs : s = ""
        · subst hs
          simp [jsTruthy, discountApplied, decreaseStock, addOrder]
        · have hst : jsTruthy (some s) = true := by simp [jsTruthy, hs]
          simp only [hst, if_true, incrementDiscountUsage, decreaseStock, addOrder,
            Option.getD_some]
          rw [usageOf_incUsage]
          by_cases hcs : c = s
          · subst hcs
            simp [discountApplied, hst, getDiscount]
          · have : ¬ (some s = some c) := by simpa using fun h => hcs h.symm
            simp [hcs, this]
  · intro o ho
    have horder : o = (addOrder (Part001.newOrderData env w p) w).1 := by
      revert ho
      split <;>
        · intro ho
          simpa [incrementDiscountUsage, decreaseStock, addOrder] using ho.symm
    subst horder
    constructor
    · simpa [addOrder, Part001.newOrderData] using hda
    · simp [addOrder, Part001.newOrderData]

/-- Closed witness for C2: the SAVE10 scenario — COD paperback at base
price 500 with the 10 percent code yields success with the new order id,
stock 5 → 4, SAVE10 usage 0 → 1, and a persisted order with discount
amount 50 and price 450. -/
theorem placeOrder_cod_effects_witness :
    ((Part001.placeOrder sampleEnv sampleWorld samplePayload).1).success = true ∧
    ((Part001.placeOrder sampleEnv sampleWorld samplePayload).1).orderId = some "ORD-0" ∧
    ((Part001.placeOrder sampleEnv sampleWorld samplePayload).2).stock .paperback = 4 ∧
    usageOf "SAVE10" ((Part001.placeOrder sampleEnv sampleWorld samplePayload).2).discounts = 1 ∧
    (∀ o : Order,
      ((Part001.placeOrder sampleEnv sampleWorld samplePayload).2).orders.head? = some o →
      o.discountAmount = 50 ∧ o.price = 450) := by
  have h := placeOrder_cod_effects sampleEnv sampleWorld samplePayload
    (by decide) (by decide) (by decide) (by decide)
  obtain ⟨h1, h2, h3, h4, h5⟩ := h
  refine ⟨h1, by simpa using h2, by simpa using h3, ?_, ?_⟩
  · have := h4 "SAVE10"
    simpa [sampleWorld, samplePayload, usageOf, discountApplied, getDiscount,
      jsTruthy] using this
  · intro o ho
    have hfacts := h5 o ho
    have hd : o.discountAmount = 50 := by
      simpa [sampleWorld, samplePayload, sampleEnv, specDiscountAmount, getDiscount,
        jsRound] using hfacts.1
    refine ⟨hd, ?_⟩
    have hp := hfacts.2
    rw [hd] at hp
    simpa [sampleEnv, samplePayload] using hp

theorem codeDiscountAmount_none_of_miss (w : World) (c : String) (op : Nat)
    (hmiss : getDiscount c w = none) :
    Part001.codeDiscountAmount w (some c) op = 0 := by
  by_cases hc : c = ""
  · subst hc
    simp [Part001.codeDiscountAmount, jsTruthy]
  · simp [Part001.codeDiscountAmount, jsTruthy, hc, hmiss]

theorem placeOrder_orders_shape (env : Env) (w : World) (p : Part001.OrderPayload)
    (hval : Part001.orderFormValid p = true)
    (hdb : env.addOrderFails = false) :
    ((Part001.placeOrder env w p).2).orders =
      (addOrder (Part001.newOrderData env w p) w).1 :: w.orders := by
  cases hpm : p.paymentMethod with
  | cod =>
      rw [placeOrder_cod_eq env w p hval hdb hpm]
      split <;> rfl
  | prepaid =>
      rw [placeOrder_prepaid_eq env w p hval hdb hpm]
      cases Part001.initiatePhonePePayment env
          (addOrder (Part001.newOrderData env w p) w).1 with
      | error e => rfl
      | ok r =>
          by_cases hr : (r.success && r.redirectUrl.isSome) = true <;>
            simp [hr, addOrder]

theorem initiate_congr (env : Env) (o1 o2 : Order)
    (hprice : o1.price = o2.price) (hid : o1.id = o2.id)
    (huid : o1.userId = o2.userId) (hphone : o1.phone = o2.phone) :
    Part001.initiatePhonePePayment env o1 = Part001.initiatePhonePePayment env o2 := by
  simp [Part001.initiatePhonePePayment, Part001.payPayload, Part001.payRequest,
    hprice, hid, huid, hphone]

/-- C5: supplying a discount code that is absent from the Discount Ledger
never fails the placement because of the code: the caller-visible result is
identical to the result of the same placement with no code supplied (so no
error about the code is reported), and the persisted order carries a zero
discount amount at the undiscounted price. -/
theorem unknown_discount_code_ignored (env : Env) (w : World)
    (p : Part001.OrderPayload) (c : String)
    (hval : Part001.orderFormValid p = true)
    (hdb : env.addOrderFails = false)
    (hcode : p.discountCode = some c)
    (hmiss : getDiscount c w = none) :
    (Part001.placeOrder env w p).1 =
      (Part001.placeOrder env w { p with discountCode := none }).1 ∧
    ∃ o : Order, ((Part001.placeOrder env w p).2).orders = o :: w.orders ∧
      o.discountAmount = 0 ∧ o.price = (env.prices p.variant : Int) := by
  have hz : Part001.codeDiscountAmount w p.discountCode (env.prices p.variant) = 0 := by
    rw [hcode]
    exact codeDiscountAmount_none_of_miss w c (env.prices p.variant) hmiss
  have hex : ∃ o : Order, ((Part001.placeOrder env w p).2).orders = o :: w.orders ∧
      o.discountAmount = 0 ∧ o.price = (env.prices p.variant : Int) := by
    refine ⟨(addOrder (Part001.newOrderData env w p) w).1,
      placeOrder_orders_shape env w p hval hdb, ?_, ?_⟩
    · simpa [addOrder, Part001.newOrderData] using hz
    · simp [addOrder, Part001.newOrderData, hz]
  refine ⟨?_, hex⟩
  obtain ⟨va, nm, em, ph, ad, st, ci, co, sta, pc, uid, dc, pm⟩ := p
  replace hcode : dc = some c := hcode
  subst hcode
  have hvalc : Part001.orderFormValid
    { variant := va, name := nm, email := em, phone := ph, address := ad
      street := st, city := ci, country := co, state := sta, pinCode := pc
      userId := uid, discountCode := some c, paymentMethod := pm } = true := hval
  replace hval : Part001.orderFormValid
    { variant := va, name := nm, email := em, phone := ph, address := ad
      street := st, city := ci, country := co, state := sta, pinCode := pc
      userId := uid, discountCode := none, paymentMethod := pm } = true := hval
  replace hz : Part001.codeDiscountAmount w (some c) (env.prices va) = 0 := hz
  cases pm with
  | cod =>
      rw [placeOrder_cod_eq env w _ hvalc hdb rfl,
        placeOrder_cod_eq env w _ hval hdb rfl]
  | prepaid =>
      rw [placeOrder_prepaid_eq env w _ hvalc hdb rfl,
        placeOrder_prepaid_eq env w _ hval hdb rfl]
      have hinit := initiate_congr env
        (addOrder (Part001.newOrderData env w
          { variant := va, name := nm, email := em, phone := ph, address := ad
            street := st, city := ci, country := co, state := sta, pinCode := pc
            userId := uid, discountCode := some c
            paymentMethod := .prepaid }) w).1
        (addOrder (Part001.newOrderData env w
          { variant := va, name := nm, email := em, phone := ph, address := ad
            street := st, city := ci, country := co, state := sta, pinCode := pc
            userId := uid, discountCode := none
            paymentMethod := .prepaid }) w).1
        (by simp [addOrder, Part001.newOrderData, hz, Part001.codeDiscountAmount,
          jsTruthy, hmiss]) rfl rfl rfl
      rw [hinit]
      cases Part001.initiatePhonePePayment env
          (addOrder (Part001.newOrderData env w
            { variant := va, name := nm, email := em, phone := ph, address := ad
              street := st, city := ci, country := co, state := sta, pinCode := pc
              userId := uid, discountCode := none
              paymentMethod := .prepaid }) w).1 with
      | error e => rfl
      | ok r =>
          by_cases hr : (r.success && r.redirectUrl.isSome) = true <;> simp [hr]

/-- Closed witness for C5: a COD placement carrying the unknown code
NOSUCH yields the same result as the same placement without a code, and
persists a zero-discount order at the full price of 500. -/
theorem unknown_discount_code_ignored_witness :
    (Part001.placeOrder sampleEnv sampleWorld
        { samplePayload with discountCode := some "NOSUCH" }).1 =
      (Part001.placeOrder sampleEnv sampleWorld
        { { samplePayload with discountCode := some "NOSUCH" } with
            discountCode := none }).1 ∧
    ∃ o : Order,
      ((Part001.placeOrder sampleEnv sampleWorld
          { samplePayload with discountCode := some "NOSUCH" }).2).orders =
        o :: sampleWorld.orders ∧
      o.discountAmount = 0 ∧
      o.price = (sampleEnv.prices
        ({ samplePayload with discountCode := some "NOSUCH" }).variant : Int) :=
  unknown_discount_code_ignored sampleEnv sampleWorld
    { samplePayload with discountCode := some "NOSUCH" } "NOSUCH"
    (by decide) (by decide) rfl (by decide)

theorem updateOrderStatus_found (uid oid : String) (st : OrderStatus)
    (hrev : Option Bool) (w : World) (o : Order)
    (ho : getOrderById uid oid w = some o) :
    updateOrderStatus uid oid st hrev w =
      some { w with orders := w.orders.map (fun a =>
        if orderKey uid oid a then
          { a with status := st, hasReview := hrev.getD a.hasReview }
        else a) } := by
  have hany : w.orders.any (orderKey uid oid) = true := by
    rw [List.any_eq_true]
    exact ⟨o, List.mem_of_find?_eq_some ho, List.find?_some ho⟩
  simp [updateOrderStatus, hany]

theorem updateOrderStatus_missing (uid oid : String) (st : OrderStatus)
    (hrev : Option Bool) (w : World)
    (ho : getOrderById uid oid w = none) :
    updateOrderStatus uid oid st hrev w = none := by
  have hany : w.orders.any (orderKey uid oid) = false := by
    rw [Bool.eq_false_iff]
    intro hc
    rw [List.any_eq_true] at hc
    obtain ⟨a, hmem, ha⟩ := hc
    have := List.find?_eq_none.mp ho a hmem
    simp [ha] at this
  simp [updateOrderStatus, hany]

theorem getOrderById_after_update (uid oid : String) (st : OrderStatus)
    (hrev : Option Bool) (w : World) (o : Order)
    (ho : getOrderById uid oid w = some o) :
    getOrderById uid oid
      { w with orders := w.orders.map (fun a =>
        if orderKey uid oid a then
          { a with status := st, hasReview := hrev.getD a.hasReview }
        else a) } =
      some { o with status := st, hasReview := hrev.getD o.hasReview } := by
  unfold getOrderById at ho ⊢
  rw [find?_map_pres (orderKey uid oid)
    (fun a => if orderKey uid oid a then
      { a with status := st, hasReview := hrev.getD a.hasReview }
    else a) w.orders ?hpres]
  case hpres =>
    intro a
    by_cases ha : orderKey uid oid a = true
    · simp only [ha, if_true]
      exact ha
    · simp [ha]
  rw [ho]
  simp [List.find?_some ho]

theorem submitReview_found_eq (w : World) (d : Part001.ReviewInput) (o : Order)
    (hval : Part001.reviewValid d = true)
    (ho : getOrderById d.userId d.orderId w = some o) :
    Part001.submitReview w d =
      ({ success := true, message := "Review submitted successfully." },
       { w with
         reviews := { orderId := d.orderId, userId := d.userId, rating := d.rating, reviewText := d.reviewText, userName := o.name } :: w.reviews
         orders := w.orders.map (fun a => if orderKey d.userId d.orderId a then { a with status := OrderStatus.delivered, hasReview := true } else a) }) := by
  have hor1 : getOrderById d.userId d.orderId
      (addReview { orderId := d.orderId, userId := d.userId, rating := d.rating, reviewText := d.reviewText, userName := o.name } w) = some o := ho
  have hupd := updateOrderStatus_found d.userId d.orderId .delivered (some true)
    (addReview { orderId := d.orderId, userId := d.userId, rating := d.rating, reviewText := d.reviewText, userName := o.name } w) o hor1
  simp only [addReview, Option.getD_some] at hupd
  simp [Part001.submitReview, hval, ho, hupd, addReview]

/-- C6: `submitReview` fails when no order with the given id exists for the
requesting user; on success it persists the review (with the order's name
denormalized into it) and force-sets the order's status to delivered and
hasReview to true regardless of the order's prior status. -/
theorem submitReview_correct (w : World) (d : Part001.ReviewInput)
    (hval : Part001.reviewValid d = true) :
    (getOrderById d.userId d.orderId w = none →
      ((Part001.submitReview w d).1).success = false) ∧
    (∀ o : Order, getOrderById d.userId d.orderId w = some o →
      ((Part001.submitReview w d).1).success = true ∧
      ((Part001.submitReview w d).2).reviews =
        { orderId := d.orderId, userId := d.userId, rating := d.rating, reviewText := d.reviewText, userName := o.name } :: w.reviews ∧
      getOrderById d.userId d.orderId ((Part001.submitReview w d).2) =
        some { o with status := .delivered, hasReview := true }) := by
  constructor
  · intro hnone
    simp [Part001.submitReview, hval, hnone]
  · intro o ho
    rw [submitReview_found_eq w d o hval ho]
    refine ⟨rfl, rfl, ?_⟩
    have := getOrderById_after_update d.userId d.orderId .delivered (some true) w o ho
    simpa using this

/-- Closed witness for C6: reviewing the cancelled order ORD-7 succeeds,
persists the review with the order's name, and forces the order to
delivered with hasReview true even though it was cancelled. -/
theorem submitReview_correct_witness :
    ((Part001.submitReview orderWorld
        { orderId := "ORD-7", userId := "user1", rating := 5
          reviewText := some "Great" }).1).success = true ∧
    ((Part001.submitReview orderWorld
        { orderId := "ORD-7", userId := "user1", rating := 5
          reviewText := some "Great" }).2).reviews =
      { orderId := "ORD-7", userId := "user1", rating := 5, reviewText := some "Great", userName := sampleOrder.name } :: orderWorld.reviews ∧
    getOrderById "user1" "ORD-7"
        ((Part001.submitReview orderWorld
          { orderId := "ORD-7", userId := "user1", rating := 5
            reviewText := some "Great" }).2) =
      some { sampleOrder with status := .delivered, hasReview := true } :=
  (submitReview_correct orderWorld
    { orderId := "ORD-7", userId := "user1", rating := 5, reviewText := some "Great" }
    (by decide)).2 sampleOrder (by decide)

/-- C7: `changeOrderStatus` permits every transition among the four
statuses: for every located order and every target status (cancelled to
delivered included) the update succeeds unconditionally and records the new
status; it fails exactly when no order with the given id exists for the
given customer, leaving the store unchanged. -/
theorem changeOrderStatus_unrestricted (w : World) (uid oid : String)
    (st : OrderStatus) :
    (∀ o : Order, getOrderById uid oid w = some o →
      ((ActionsTs.changeOrderStatus w uid oid st).1).success = true ∧
      getOrderById uid oid ((ActionsTs.changeOrderStatus w uid oid st).2) =
        some { o with status := st }) ∧
    (getOrderById uid oid w = none →
      ((ActionsTs.changeOrderStatus w uid oid st).1).success = false ∧
      (ActionsTs.changeOrderStatus w uid oid st).2 = w) := by
  constructor
  · intro o ho
    have hupd := updateOrderStatus_found uid oid st none w o ho
    constructor
    · simp [ActionsTs.changeOrderStatus, hupd]
    · have hws : (ActionsTs.changeOrderStatus w uid oid st).2 =
          { w with orders := w.orders.map (fun a =>
            if orderKey uid oid a then
              { a with status := st, hasReview := (none : Option Bool).getD a.hasReview }
            else a) } := by
        simp [ActionsTs.changeOrderStatus, hupd]
      rw [hws]
      have := getOrderById_after_update uid oid st none w o ho
      simpa using this
  · intro hnone
    have hupd := updateOrderStatus_missing uid oid st none w hnone
    constructor
    · simp [ActionsTs.changeOrderStatus, hupd]
    · simp [ActionsTs.changeOrderStatus, hupd]

/-- Closed witness for C7: moving the cancelled order ORD-7 to delivered
succeeds and records the new status, while an unknown order id fails. -/
theorem changeOrderStatus_unrestricted_witness :
    (((ActionsTs.changeOrderStatus orderWorld "user1" "ORD-7" .delivered).1).success = true ∧
      getOrderById "user1" "ORD-7"
          ((ActionsTs.changeOrderStatus orderWorld "user1" "ORD-7" .delivered).2) =
        some { sampleOrder with status := .delivered }) ∧
    (((ActionsTs.changeOrderStatus orderWorld "user1" "ORD-9" .delivered).1).success = false ∧
      (ActionsTs.changeOrderStatus orderWorld "user1" "ORD-9" .delivered).2 = orderWorld) :=
  ⟨(changeOrderStatus_unrestricted orderWorld "user1" "ORD-7" .delivered).1
      sampleOrder (by decide),
   (changeOrderStatus_unrestricted orderWorld "user1" "ORD-9" .delivered).2 (by decide)⟩

/-- Counterexample to C3 as stated: in the part_001 server-actions module
the prepaid placement persists the Order before initiating payment, and on
a failed gateway initiation (failure reply KEY_ERROR) the operation returns
failure while an Order record still exists — starting from an empty order
store, one Order remains, contradicting "no Order record exists afterwards"
(and no PendingOrder is ever created on this path). -/
theorem prepaid_failure_order_persists_cex :
    ((Part001.placeOrder gwFailEnv sampleWorld
        { samplePayload with paymentMethod := .prepaid }).1).success = false ∧
    ((Part001.placeOrder gwFailEnv sampleWorld
        { samplePayload with paymentMethod := .prepaid }).2).orders.length = 1 ∧
    sampleWorld.orders.length = 0 := by
  decide

set_option maxRecDepth 4000 in
/-- C3 amended: in `processPrepaidOrder` (the actions.ts prepaid path), when
the gateway replies without a usable redirect URL the PendingOrder created
for the generated transaction id is deleted and no Order record exists
afterwards; when the gateway call itself throws, no Order is created either
but the PendingOrder record remains undeleted; the part_001 prepaid
placement instead persists a real Order before initiation and leaves it in
place on failure. -/
theorem processPrepaidOrder_failure_cleanup (env : Env) (w : World)
    (p : ActionsTs.OrderInput)
    (hval : ActionsTs.orderSchemaValid p = true)
    (hfresh : ∀ e ∈ w.pendingOrders, e.1 ≠ ActionsTs.merchantTransactionId env) :
    (∀ ok url msg, env.gateway = .reply ok url msg → (ok && jsTruthy url) = false →
      ((ActionsTs.processPrepaidOrder env w p).1).success = false ∧
      ((ActionsTs.processPrepaidOrder env w p).2.1).pendingOrders = w.pendingOrders ∧
      ((ActionsTs.processPrepaidOrder env w p).2.1).orders = w.orders) ∧
    (∀ msg, env.gateway = .netError msg →
      ((ActionsTs.processPrepaidOrder env w p).1).success = false ∧
      ((ActionsTs.processPrepaidOrder env w p).2.1).orders = w.orders ∧
      ∃ rec : PendingOrder,
        ((ActionsTs.processPrepaidOrder env w p).2.1).pendingOrders =
          (ActionsTs.merchantTransactionId env, rec) :: w.pendingOrders) := by
  have hstep : ActionsTs.processPrepaidOrder env w p =
      (match env.gateway with
       | .netError m =>
           ({ success := false, message := m, redirectUrl := none },
            addPendingOrder (ActionsTs.merchantTransactionId env) (ActionsTs.pendingData env p) w,
            some (ActionsTs.prepaidRequest env p, ActionsTs.prepaidPayload env p))
       | .reply ok url msg =>
           if !(ok && jsTruthy url) then
             ({ success := false, message := msg.getD "Failed to initiate payment with PhonePe.", redirectUrl := none },
              deletePendingOrder (ActionsTs.merchantTransactionId env)
                (addPendingOrder (ActionsTs.merchantTransactionId env) (ActionsTs.pendingData env p) w),
              some (ActionsTs.prepaidRequest env p, ActionsTs.prepaidPayload env p))
           else
             ({ success := true, message := "Redirecting to payment gateway.", redirectUrl := url },
              addPendingOrder (ActionsTs.merchantTransactionId env) (ActionsTs.pendingData env p) w,
              some (ActionsTs.prepaidRequest env p, ActionsTs.prepaidPayload env p))) := by
    simp only [ActionsTs.processPrepaidOrder, hval, Bool.not_true, Bool.false_eq_true,
      if_false]
  obtain ⟨m, hm⟩ : ∃ m, ActionsTs.merchantTransactionId env = m := ⟨_, rfl⟩
  rw [hm] at hstep hfresh ⊢
  constructor
  · intro ok url msg hgw hfail
    rw [hstep, hgw]
    dsimp only
    have hc : (!(ok && jsTruthy url)) = true := by rw [hfail]; rfl
    rw [if_pos hc]
    refine ⟨rfl, ?_, rfl⟩
    simp only [deletePendingOrder, addPendingOrder, List.filter_cons,
      bne_self_eq_false, Bool.false_eq_true, if_false]
    rw [List.filter_eq_self]
    intro a ha
    simpa using hfresh a ha
  · intro msg hgw
    rw [hstep, hgw]
    dsimp only
    exact ⟨rfl, rfl, ActionsTs.pendingData env p, rfl⟩


/-- Closed witness for C3 (amended): a valid prepaid attempt against a
gateway that replies with failure leaves the pending-order store and the
order store exactly as they were. -/
theorem processPrepaidOrder_failure_cleanup_witness :
    ((ActionsTs.processPrepaidOrder gwFailEnv sampleWorld sampleInput).1).success = false ∧
    ((ActionsTs.processPrepaidOrder gwFailEnv sampleWorld sampleInput).2.1).pendingOrders =
      sampleWorld.pendingOrders ∧
    ((ActionsTs.processPrepaidOrder gwFailEnv sampleWorld sampleInput).2.1).orders =
      sampleWorld.orders :=
  (processPrepaidOrder_failure_cleanup gwFailEnv sampleWorld sampleInput
      (by decide) (by intro e he; simp [sampleWorld] at he)).1
    false none (some "KEY_ERROR") rfl (by decide)

theorem initiate_eq_of_cfg (env : Env) (o : Order)
    (hcfg : (jsTruthy env.phonepeMerchantId && jsTruthy env.phonepeSaltKey &&
             jsTruthy env.phonepeSaltIndex && jsTruthy env.hostUrl) = true) :
    Part001.initiatePhonePePayment env o =
      .ok { payload := Part001.payPayload env o, request := Part001.payRequest env o
            success := (Part001.gatewayView env.gateway).1
            redirectUrl := (Part001.gatewayView env.gateway).2.1
            message := (Part001.gatewayView env.gateway).2.2 } := by
  rw [Bool.and_eq_true, Bool.and_eq_true, Bool.and_eq_true] at hcfg
  obtain ⟨⟨⟨h1, h2⟩, h3⟩, h4⟩ := hcfg
  unfold Part001.initiatePhonePePayment
  rw [h1, h2, h3, h4]
  rfl

/-- C4: a prepaid placement that succeeds (the gateway replies success with
a nonempty redirect URL) returns success carrying that URL and leaves every
stock quantity and the whole discount ledger (hence every usage counter)
unchanged, on both prepaid code paths: the part_001 `placeOrder` prepaid
branch and the actions.ts `processPrepaidOrder`. -/
theorem prepaid_success_frame (env : Env) (w : World) (p : Part001.OrderPayload)
    (q : ActionsTs.OrderInput)
    (hval : Part001.orderFormValid p = true)
    (hqval : ActionsTs.orderSchemaValid q = true)
    (hdb : env.addOrderFails = false)
    (hpm : p.paymentMethod = PaymentMethod.prepaid)
    (hcfg : (jsTruthy env.phonepeMerchantId && jsTruthy env.phonepeSaltKey &&
             jsTruthy env.phonepeSaltIndex && jsTruthy env.hostUrl) = true)
    (u : String) (msg : Option String)
    (hgw : env.gateway = .reply true (some u) msg)
    (hu : u ≠ "") :
    ((Part001.placeOrder env w p).1).success = true ∧
    ((Part001.placeOrder env w p).1).redirectUrl = some u ∧
    (∀ v, ((Part001.placeOrder env w p).2).stock v = w.stock v) ∧
    ((Part001.placeOrder env w p).2).discounts = w.discounts ∧
    ((ActionsTs.processPrepaidOrder env w q).1).success = true ∧
    ((ActionsTs.processPrepaidOrder env w q).1).redirectUrl = some u ∧
    (∀ v, ((ActionsTs.processPrepaidOrder env w q).2.1).stock v = w.stock v) ∧
    ((ActionsTs.processPrepaidOrder env w q).2.1).discounts = w.discounts := by
  have hjs : jsTruthy (some u) = true := by simp [jsTruthy, hu]
  have hgv : Part001.gatewayView env.gateway = (true, some u, none) := by
    rw [hgw]
    simp [Part001.gatewayView, hjs]
  have hinit := initiate_eq_of_cfg env (addOrder (Part001.newOrderData env w p) w).1 hcfg
  rw [hgv] at hinit
  have hpart : Part001.placeOrder env w p =
      ({ success := true, message := "Redirecting to payment gateway."
         orderId := none, redirectUrl := some u },
       (addOrder (Part001.newOrderData env w p) w).2) := by
    rw [placeOrder_prepaid_eq env w p hval hdb hpm, hinit]
    simp
  have hacts : ActionsTs.processPrepaidOrder env w q =
      ({ success := true, message := "Redirecting to payment gateway."
         redirectUrl := some u },
       addPendingOrder (ActionsTs.merchantTransactionId env) (ActionsTs.pendingData env q) w,
       some (ActionsTs.prepaidRequest env q, ActionsTs.prepaidPayload env q)) := by
    simp only [ActionsTs.processPrepaidOrder, hqval, Bool.not_true, Bool.false_eq_true,
      if_false, hgw]
    simp [hjs]
  rw [hpart, hacts]
  exact ⟨rfl, rfl, fun v => rfl, rfl, rfl, rfl, fun v => rfl, rfl⟩

/-- Closed witness for C4: with a successful gateway reply, both prepaid
paths return the redirect URL and leave stock and the discount ledger
untouched. -/
theorem prepaid_success_frame_witness :
    ((Part001.placeOrder sampleEnv sampleWorld
        { samplePayload with paymentMethod := .prepaid }).1).success = true ∧
    ((Part001.placeOrder sampleEnv sampleWorld
        { samplePayload with paymentMethod := .prepaid }).1).redirectUrl =
      some "https://pay.example/redirect" ∧
    (∀ v, ((Part001.placeOrder sampleEnv sampleWorld
        { samplePayload with paymentMethod := .prepaid }).2).stock v =
      sampleWorld.stock v) ∧
    ((Part001.placeOrder sampleEnv sampleWorld
        { samplePayload with paymentMethod := .prepaid }).2).discounts =
      sampleWorld.discounts ∧
    ((ActionsTs.processPrepaidOrder sampleEnv sampleWorld sampleInput).1).success = true ∧
    ((ActionsTs.processPrepaidOrder sampleEnv sampleWorld sampleInput).1).redirectUrl =
      some "https://pay.example/redirect" ∧
    (∀ v, ((ActionsTs.processPrepaidOrder sampleEnv sampleWorld sampleInput).2.1).stock v =
      sampleWorld.stock v) ∧
    ((ActionsTs.processPrepaidOrder sampleEnv sampleWorld sampleInput).2.1).discounts =
      sampleWorld.discounts :=
  prepaid_success_frame sampleEnv sampleWorld
    { samplePayload with paymentMethod := .prepaid } sampleInput
    (by decide) (by decide) (by decide) rfl (by decide)
    "https://pay.example/redirect" none rfl (by decide)

/-- C8: with configured credentials, the payment-initiation request carries
signature hex(SHA-256(base64Payload ++ apiPath ++ secret)) ++ "###" ++
keyIndex with the signed payload's amount equal to price × 100 and the
base64 payload as the body, while the status check applies the same scheme
to the status path only (no body, GET), sending the merchant id as a
separate header rather than inside the signed payload. -/
theorem phonepe_signature_scheme (env : Env) (o : Order) (txn : String)
    (hcfg : (jsTruthy env.phonepeMerchantId && jsTruthy env.phonepeSaltKey &&
             jsTruthy env.phonepeSaltIndex && jsTruthy env.hostUrl) = true) :
    (∃ r : Part001.InitResult, Part001.initiatePhonePePayment env o = .ok r ∧
      r.request.xVerify =
        env.sha256hex (env.base64 (env.jsonOf r.payload) ++ "/pg/v1/pay" ++
          env.phonepeSaltKey.getD "") ++ "###" ++ env.phonepeSaltIndex.getD "" ∧
      r.request.body = some (env.base64 (env.jsonOf r.payload)) ∧
      r.request.method = "POST" ∧
      r.payload.amount = o.price * 100) ∧
    (∃ rq : HttpRequest, Part001.checkPhonePeStatus env txn = .ok rq ∧
      rq.method = "GET" ∧ rq.body = none ∧
      rq.xMerchantId = some (env.phonepeMerchantId.getD "") ∧
      rq.xVerify =
        env.sha256hex (("/pg/v1/status/" ++ env.phonepeMerchantId.getD "" ++ "/" ++ txn) ++
          env.phonepeSaltKey.getD "") ++ "###" ++ env.phonepeSaltIndex.getD "") := by
  have hcfg3 : (jsTruthy env.phonepeMerchantId && jsTruthy env.phonepeSaltKey &&
      jsTruthy env.phonepeSaltIndex) = true := by
    rw [Bool.and_eq_true, Bool.and_eq_true, Bool.and_eq_true] at hcfg
    obtain ⟨⟨⟨h1, h2⟩, h3⟩, h4⟩ := hcfg
    rw [h1, h2, h3]
    rfl
  constructor
  · exact ⟨_, initiate_eq_of_cfg env o hcfg, rfl, rfl, rfl, rfl⟩
  · refine ⟨statusRequest env txn, ?_, rfl, rfl, rfl, rfl⟩
    unfold Part001.checkPhonePeStatus statusRequest
    rw [hcfg3]
    rfl

/-- Closed witness for C8: the signature facts instantiated at the sample
environment, the sample cancelled order and transaction id TX1. -/
theorem phonepe_signature_scheme_witness :
    (∃ r : Part001.InitResult,
      Part001.initiatePhonePePayment sampleEnv sampleOrder = .ok r ∧
      r.request.xVerify =
        sampleEnv.sha256hex (sampleEnv.base64 (sampleEnv.jsonOf r.payload) ++ "/pg/v1/pay" ++
          sampleEnv.phonepeSaltKey.getD "") ++ "###" ++ sampleEnv.phonepeSaltIndex.getD "" ∧
      r.request.body = some (sampleEnv.base64 (sampleEnv.jsonOf r.payload)) ∧
      r.request.method = "POST" ∧
      r.payload.amount = sampleOrder.price * 100) ∧
    (∃ rq : HttpRequest, Part001.checkPhonePeStatus sampleEnv "TX1" = .ok rq ∧
      rq.method = "GET" ∧ rq.body = none ∧
      rq.xMerchantId = some (sampleEnv.phonepeMerchantId.getD "") ∧
      rq.xVerify =
        sampleEnv.sha256hex (("/pg/v1/status/" ++ sampleEnv.phonepeMerchantId.getD "" ++ "/" ++ "TX1") ++
          sampleEnv.phonepeSaltKey.getD "") ++ "###" ++ sampleEnv.phonepeSaltIndex.getD "") :=
  phonepe_signature_scheme sampleEnv sampleOrder "TX1" (by decide)

/-- Counterexample to C9 as stated: the actions.ts prepaid initiation has no
configuration check — with every PhonePe variable unconfigured it still
signs and sends a request whose payload carries the empty merchant id, and
even reports success, instead of failing as a configuration error. -/
theorem processPrepaidOrder_unconfigured_proceeds_cex :
    ∃ rp : HttpRequest × PayPayload,
      (ActionsTs.processPrepaidOrder noCfgEnv sampleWorld sampleInput).2.2 = some rp ∧
      rp.2.merchantId = "" ∧
      ((ActionsTs.processPrepaidOrder noCfgEnv sampleWorld sampleInput).1).success = true :=
  ⟨_, rfl, rfl, rfl⟩

/-- C9 amended: the part_001 gateway adapter does fail loudly — with any of
the merchant id, salt key or salt index unconfigured (absent or empty),
both `initiatePhonePePayment` and `checkPhonePeStatus` throw the
configuration error and never build or send a request; the actions.ts
prepaid path instead substitutes empty-string defaults and proceeds (see
the counterexample). -/
theorem phonepe_missing_config_fails (env : Env)
    (hmiss : jsTruthy env.phonepeMerchantId = false ∨
             jsTruthy env.phonepeSaltKey = false ∨
             jsTruthy env.phonepeSaltIndex = false) :
    (∀ o : Order, Part001.initiatePhonePePayment env o =
      .error "PhonePe environment variables are not configured.") ∧
    (∀ t : String, Part001.checkPhonePeStatus env t =
      .error "PhonePe environment variables are not configured.") := by
  constructor
  · intro o
    rcases hmiss with h | h | h <;>
      simp [Part001.initiatePhonePePayment, h]
  · intro t
    rcases hmiss with h | h | h <;>
      simp [Part001.checkPhonePeStatus, h]

/-- Closed witness for C9 (amended): with the merchant id unset, both
part_001 adapter operations throw the configuration error. -/
theorem phonepe_missing_config_fails_witness :
    Part001.initiatePhonePePayment { sampleEnv with phonepeMerchantId := none } sampleOrder =
      .error "PhonePe environment variables are not configured." ∧
    Part001.checkPhonePeStatus { sampleEnv with phonepeMerchantId := none } "TX1" =
      .error "PhonePe environment variables are not configured." := by
  have h := phonepe_missing_config_fails { sampleEnv with phonepeMerchantId := none }
    (Or.inl (by decide))
  exact ⟨h.1 sampleOrder, h.2 "TX1"⟩

/-- C10: in the COD-only `placeOrder` of the actions.ts module the stock
decrement runs before the order is persisted, so on an input where the
order-store create fails after the decrement succeeded the operation
returns failure while the Stock Ledger stays decremented by 1, with no
compensating increment and no order persisted. -/
theorem cod_placeOrder_stock_leak (env : Env) (w : World) (p : ActionsTs.OrderInput)
    (hval : ActionsTs.orderSchemaValid p = true)
    (hdb : env.addOrderFails = true) :
    ((ActionsTs.placeOrder env w p).1).success = false ∧
    ((ActionsTs.placeOrder env w p).2).stock p.variant = w.stock p.variant - 1 ∧
    ((ActionsTs.placeOrder env w p).2).orders = w.orders := by
  simp [ActionsTs.placeOrder, hval, hdb, decreaseStock]

/-- Closed witness for C10: with a failing order-store write, the COD
placement reports failure yet paperback stock has dropped from 5 to 4 and
no order was persisted. -/
theorem cod_placeOrder_stock_leak_witness :
    ((ActionsTs.placeOrder { sampleEnv with addOrderFails := true } sampleWorld sampleInput).1).success = false ∧
    ((ActionsTs.placeOrder { sampleEnv with addOrderFails := true } sampleWorld sampleInput).2).stock
        sampleInput.variant = sampleWorld.stock sampleInput.variant - 1 ∧
    ((ActionsTs.placeOrder { sampleEnv with addOrderFails := true } sampleWorld sampleInput).2).orders =
      sampleWorld.orders :=
  cod_placeOrder_stock_leak { sampleEnv with addOrderFails := true } sampleWorld
    sampleInput (by decide) rfl
